import Mathlib

/-!
# Verification of the x402 router provider node

Shallow embedding of the payment-gated metered dispatch engine of the
x402 provider node: the Solana on-chain payment verifier, the payment
middleware, the `POST /call` dispatch pipeline with its stats tracking,
and the registry lifecycle client (register / heartbeat / unregister).

Numbers that are JavaScript `number`s in the source are modelled as `ℚ`
(exact arithmetic); counters are `ℕ`.  Network effects (the Solana RPC
connection, the registry fetches) are modelled as explicit oracles or
outcome parameters; the sequencing of awaited effects inside one request
is modelled as an event trace.
-/

namespace X402Router

/-! ## On-chain payment verification (middleware.ts, `verifySolanaOnChainPayment`) -/

/-- The SPL token program id compared against each instruction's `programId`. -/
def TOKEN_PROGRAM_ID : String := "TokenkegQfeZyiNwAJbNbGKPFXCWuBvf9Ss623VQ5DA"

/-- The `parsed.type` / `parsed.info` payload of a parsed instruction:
`type`, `info.destination`, `info.amount` (a decimal string in the RPC
response, here the parsed natural number, `none` when the field is
absent), `info.tokenAmount.amount` (fallback used by `transferChecked`),
and `info.authority` (the sender). -/
structure ParsedInfo where
  typ : String
  destination : String
  amount : Option ℕ
  tokenAmountAmount : Option ℕ
  authority : String
deriving Repr, DecidableEq

/-- One instruction of the fetched transaction: its program id and, when it
is a parsed instruction (`'parsed' in ix`), its parsed payload. -/
structure Instruction where
  programId : String
  parsed : Option ParsedInfo
deriving Repr, DecidableEq

/-- The transaction returned by `getParsedTransaction`: whether
`tx.meta && tx.meta.err` is truthy, and the instruction list of
`tx.transaction.message.instructions`. -/
structure ParsedTransaction where
  metaErr : Bool
  instructions : List Instruction
deriving Repr, DecidableEq

/-- The read-only Solana RPC oracle: `getParsedTransaction` by signature
(`none` = not found), and the owner lookup made through
`getParsedAccountInfo`: outer `none` = the destination account has no
data, `some none` = data present but no `parsed.info.owner` field,
`some (some owner)` = owner resolved. -/
structure SolanaConnection where
  getParsedTransaction : String → Option ParsedTransaction
  getAccountOwner : String → Option (Option String)

/-- Result record of `verifySolanaOnChainPayment` / `verifyPayment`.
The source's `from` field is named `sender` here (`from` is a Lean
keyword); `signatureEcho` is the source's `signature` field. -/
structure VerifyResult where
  valid : Bool
  amount : Option ℚ := none
  sender : Option String := none
  signatureEcho : Option String := none
  error : Option String := none
deriving Repr, DecidableEq

/-- The filter in step 3 of the source: a parsed instruction addressed to
the SPL token program. -/
def isTokenProgramParsed (ix : Instruction) : Bool :=
  ix.parsed.isSome && ix.programId == TOKEN_PROGRAM_ID

/-- The find in step 3: `parsed.type` is `transfer` or `transferChecked`. -/
def isTransferType (info : ParsedInfo) : Bool :=
  info.typ == "transfer" || info.typ == "transferChecked"

/-- Steps 3 of the source: filter the instructions down to parsed SPL
token-program instructions, then take the first whose parsed type is a
transfer, returning its parsed payload. -/
def findTransferInstruction (ixs : List Instruction) : Option ParsedInfo :=
  ((ixs.filter isTokenProgramParsed).filterMap (·.parsed)).find? isTransferType

/-- `verifySolanaOnChainPayment(transactionSignature, providerWallet, connection)`:
fetch the transaction, check it exists and succeeded, find the SPL token
transfer instruction, resolve the destination token account's owner,
require it to equal the provider wallet's public key, then compute
`amountPaid = Number(rawAmount) / 1_000_000` where `rawAmount` is
`info.amount` or, when that is absent, `info.tokenAmount.amount`
(both absent models `Number(undefined) = NaN`, rejected as an invalid
amount). -/
def verifySolanaOnChainPayment (transactionSignature : String)
    (providerPubkeyBase58 : String) (connection : Option SolanaConnection) :
    VerifyResult :=
  match connection with
  | none => { valid := false, error := some "Solana connection not established." }
  | some conn =>
    if transactionSignature = "" then
      { valid := false
        error := some "Invalid transaction signature: empty or not a string." }
    else
      match conn.getParsedTransaction transactionSignature with
      | none => { valid := false, error := some "Transaction not found." }
      | some tx =>
        if tx.metaErr then
          { valid := false, error := some "Transaction failed on-chain." }
        else
          match findTransferInstruction tx.instructions with
          | none =>
            { valid := false
              error := some "No valid SPL Token transfer instruction found." }
          | some info =>
            match conn.getAccountOwner info.destination with
            | none =>
              { valid := false
                error := some "Destination token account not found." }
            | some none =>
              { valid := false
                error := some "Could not determine the owner of the destination token account." }
            | some (some destinationOwner) =>
              if destinationOwner ≠ providerPubkeyBase58 then
                { valid := false
                  error := some "Payment was sent to an incorrect account." }
              else
                match info.amount.orElse (fun _ => info.tokenAmountAmount) with
                | none => { valid := false, error := some "Invalid payment amount." }
                | some rawAmount =>
                  { valid := true
                    amount := some ((rawAmount : ℚ) / 1000000)
                    sender := some info.authority
                    signatureEcho := some transactionSignature }

/-! Concrete fixture used by the witnesses below. -/

/-- A parsed SPL transfer: 2.5 USDC (2500000 raw units) to token account
`dest1`, authorized by `senderX`. -/
def sampleInfo : ParsedInfo :=
  { typ := "transfer", destination := "dest1", amount := some 2500000
    tokenAmountAmount := none, authority := "senderX" }

/-- A successful transaction holding exactly the sample transfer. -/
def sampleTx : ParsedTransaction :=
  { metaErr := false
    instructions := [{ programId := TOKEN_PROGRAM_ID, parsed := some sampleInfo }] }

/-- An oracle knowing the sample transaction under signature `sig1`, with
`dest1` owned by `pkProvider`. -/
def sampleConn : SolanaConnection :=
  { getParsedTransaction := fun s => if s = "sig1" then some sampleTx else none
    getAccountOwner := fun d => if d = "dest1" then some (some "pkProvider") else none }

/-- C1: for a fetched, successful transaction: (a) if the first SPL
token-transfer instruction's destination resolves to an owner equal to
the provider wallet's key and its raw amount is `A`, verification
succeeds with `amountPaid = A / 10^6`; (b) if the destination owner
differs from the provider's key, verification fails with the
recipient-mismatch error; (c) if no SPL token-transfer instruction is
present, verification fails with the no-transfer error. -/
theorem verify_onchain_payment_spec (sig pk : String) (conn : SolanaConnection)
    (tx : ParsedTransaction)
    (hsig : sig ≠ "")
    (htx : conn.getParsedTransaction sig = some tx)
    (hok : tx.metaErr = false) :
    (∀ info A, findTransferInstruction tx.instructions = some info →
      conn.getAccountOwner info.destination = some (some pk) →
      info.amount = some A →
      verifySolanaOnChainPayment sig pk (some conn) =
        { valid := true, amount := some ((A : ℚ) / 1000000)
          sender := some info.authority, signatureEcho := some sig }) ∧
    (∀ info owner, findTransferInstruction tx.instructions = some info →
      conn.getAccountOwner info.destination = some (some owner) →
      owner ≠ pk →
      (verifySolanaOnChainPayment sig pk (some conn)).valid = false ∧
      (verifySolanaOnChainPayment sig pk (some conn)).error =
        some "Payment was sent to an incorrect account.") ∧
    (findTransferInstruction tx.instructions = none →
      (verifySolanaOnChainPayment sig pk (some conn)).valid = false ∧
      (verifySolanaOnChainPayment sig pk (some conn)).error =
        some "No valid SPL Token transfer instruction found.") := by
  refine ⟨?_, ?_, ?_⟩
  · intro info A hfind hown hamt
    simp [verifySolanaOnChainPayment, hsig, htx, hok, hfind, hown, hamt, Option.orElse]
  · intro info owner hfind hown hne
    simp [verifySolanaOnChainPayment, hsig, htx, hok, hfind, hown, hne]
  · intro hfind
    simp [verifySolanaOnChainPayment, hsig, htx, hok, hfind]

/-- Witness for C1 at the concrete fixture: verification of `sig1`
against provider `pkProvider` yields a valid result paying 2.5 USDC. -/
theorem verify_onchain_payment_spec_witness :
    verifySolanaOnChainPayment "sig1" "pkProvider" (some sampleConn) =
      { valid := true, amount := some ((2500000 : ℚ) / 1000000)
        sender := some "senderX", signatureEcho := some "sig1" } :=
  (verify_onchain_payment_spec "sig1" "pkProvider" sampleConn sampleTx
      (by decide) rfl rfl).1 sampleInfo 2500000 (by rfl) (by rfl) rfl

/-! ## Payment middleware (middleware.ts, `paymentMiddleware`) -/

/-- The payment record the middleware attaches to the request
(`(req as any).payment`).  The source's `from` field is named `sender`. -/
structure PaymentClaim where
  amount : ℚ
  sender : String
  signature : String
  chain : String
deriving Repr, DecidableEq

/-- Outcome of the middleware on one request: `pass p` models calling
`next()` with payment `p` attached (`none` on the `/health` bypass,
which attaches nothing); `respond status error` models sending an error
response without calling `next()`. -/
inductive MiddlewareOutcome
  | pass (payment : Option PaymentClaim)
  | respond (status : ℕ) (error : String)
deriving Repr, DecidableEq

/-- JavaScript `header || default`: an absent or empty header falls back
to the default. -/
def headerOr (default : String) (h : Option String) : String :=
  match h with
  | none => default
  | some s => if s = "" then default else s

/-- The middleware handler returned by `paymentMiddleware(wallet, chains)`,
applied to one request.  `oracle` is the Solana RPC world; the
connection map holds an entry for `solana` exactly when `chains`
includes it.  The `/health` path bypasses the gate; an empty/absent
`X-Payment` header or the sentinel `free-api-call` attaches a zero
claim from `unknown` without any chain query; an unsupported
`X-Payment-Chain` yields 400; otherwise the proof token is verified
on-chain and a failed verification yields 402. -/
def paymentMiddleware (chains : List String) (providerPubkey : String)
    (oracle : SolanaConnection) (path : String)
    (xPayment xPaymentChain : Option String) : MiddlewareOutcome :=
  if path = "/health" then
    .pass none
  else
    let paymentToken := xPayment.getD ""
    let chain := headerOr "solana" xPaymentChain
    if paymentToken = "" ∨ paymentToken = "free-api-call" then
      .pass (some { amount := 0, sender := "unknown"
                    signature := paymentToken, chain := chain })
    else if chain ∉ chains then
      .respond 400 "Unsupported chain"
    else
      let result :=
        if chain = "solana" then
          verifySolanaOnChainPayment paymentToken providerPubkey
            (if "solana" ∈ chains then some oracle else none)
        else
          { valid := false
            error := some "Unsupported chain for payment verification." }
      if result.valid then
        .pass (some { amount := result.amount.getD 0
                      sender := result.sender.getD ""
                      signature := paymentToken, chain := chain })
      else
        .respond 402 "Invalid payment"

/-- C2: on any non-health path, an absent, empty, or sentinel
`free-api-call` proof token makes the gate pass the call with
`amount = 0` and `sender = "unknown"`.  The right-hand side mentions
neither the oracle, nor the provider key, nor the supported-chain list:
the outcome is the same for every chain header (supported or not) and
every configured recipient, and no chain query is consulted. -/
theorem free_call_sentinel_spec (chains : List String) (providerPubkey : String)
    (oracle : SolanaConnection) (path : String)
    (xPayment xPaymentChain : Option String)
    (hpath : path ≠ "/health")
    (htok : xPayment = none ∨ xPayment = some "" ∨ xPayment = some "free-api-call") :
    paymentMiddleware chains providerPubkey oracle path xPayment xPaymentChain =
      .pass (some { amount := 0, sender := "unknown"
                    signature := xPayment.getD ""
                    chain := headerOr "solana" xPaymentChain }) := by
  rcases htok with h | h | h <;> subst h <;>
    simp [paymentMiddleware, hpath, Option.getD]

/-- Witness for C2: the sentinel token on `/call`, with an unsupported
chain header `near` and an oracle that knows nothing, still passes as a
free call. -/
theorem free_call_sentinel_spec_witness :
    paymentMiddleware ["solana"] "pkProvider"
      { getParsedTransaction := fun _ => none, getAccountOwner := fun _ => none }
      "/call" (some "free-api-call") (some "near") =
      .pass (some { amount := 0, sender := "unknown"
                    signature := "free-api-call", chain := "near" }) :=
  free_call_sentinel_spec ["solana"] "pkProvider"
    { getParsedTransaction := fun _ => none, getAccountOwner := fun _ => none }
    "/call" (some "free-api-call") (some "near")
    (by decide) (Or.inr (Or.inr rfl))

/-! ## Metered dispatch (index.ts, `app.post('/call')`) -/

/-- Per-API configuration stored with each handler registration:
`price` in USDC and the optional `timeout` override in milliseconds. -/
structure APIConfig where
  price : ℚ
  timeout : Option ℕ
deriving Repr, DecidableEq

/-- One API handler's behaviour on this call: it settles after
`duration` milliseconds, either resolving with a result or rejecting
with an error message. -/
inductive HandlerBehavior
  | resolves (result : String) (duration : ℕ)
  | rejects (message : String) (duration : ℕ)
deriving Repr, DecidableEq

/-- An entry of the `handlers` map: the handler and its `APIConfig`. -/
structure Registration where
  handler : HandlerBehavior
  config : APIConfig
deriving Repr, DecidableEq

/-- The node's mutable counters: the four derived/stored fields of the
`stats` object plus the module-level `totalLatency` and `errorCount`
variables (the `uptime` field is recomputed on read and carries no
state). -/
structure ServerState where
  requestsServed : ℕ
  totalEarnings : ℚ
  averageLatency : ℚ
  errorRate : ℚ
  totalLatency : ℚ
  errorCount : ℕ
deriving Repr, DecidableEq

/-- The state at server construction: every counter zero. -/
def initialState : ServerState :=
  { requestsServed := 0, totalEarnings := 0, averageLatency := 0
    errorRate := 0, totalLatency := 0, errorCount := 0 }

/-- The JSON body of a `/call` response; absent fields are `none`. -/
structure ResponseBody where
  data : Option String := none
  error : Option String := none
  required : Option ℚ := none
  received : Option ℚ := none
  requestId : Option String := none
  latency : Option ℚ := none
  cost : Option ℚ := none
deriving Repr, DecidableEq

/-- An HTTP response: status code and JSON body. -/
structure HttpResponse where
  status : ℕ
  body : ResponseBody
deriving Repr, DecidableEq

/-- Observable effects of one `/call` request, in program order:
invoking the registered handler, mutating the stats object, dispatching
the heartbeat fetch to the registry, the awaited heartbeat settling,
and sending the response. -/
inductive Event
  | handlerInvoked
  | statsUpdated
  | heartbeatDispatched (latency : ℚ) (requestsServed : ℕ) (errors : ℕ)
  | heartbeatSettled
  | responseSent (status : ℕ)
deriving Repr, DecidableEq

/-- One inbound `/call` request after the payment middleware ran:
the body's `api` field (`none` models a missing or non-string value),
whether `params` is present and object-shaped, the attached payment
claim, the request id generated on entry, and the elapsed wall time
read whenever the handler computes `Date.now() - startTime`. -/
structure CallRequest where
  api : Option String
  paramsOk : Bool
  payment : PaymentClaim
  requestId : String
  elapsed : ℚ
deriving Repr, DecidableEq

/-- The complete outcome of one `/call` request: the response sent, the
state after the request, and the event trace. -/
structure CallResult where
  response : HttpResponse
  state : ServerState
  events : List Event
deriving Repr, DecidableEq

/-- The success path's stats mutation: increment `requestsServed`, add
the price to `totalEarnings`, add the latency to `totalLatency`, then
recompute `averageLatency = totalLatency / requestsServed` and
`errorRate = errorCount / requestsServed`. -/
def recordSuccess (st : ServerState) (price latency : ℚ) : ServerState :=
  let served := st.requestsServed + 1
  let total := st.totalLatency + latency
  { requestsServed := served
    totalEarnings := st.totalEarnings + price
    averageLatency := total / (served : ℚ)
    errorRate := (st.errorCount : ℚ) / (served : ℚ)
    totalLatency := total
    errorCount := st.errorCount }

/-- The catch block of the `/call` handler: increment `errorCount` and
send a 500 response carrying the error message, the request id, and the
elapsed latency. -/
def catchBlock (st : ServerState) (req : CallRequest) (message : String) :
    ServerState × HttpResponse :=
  ({ st with errorCount := st.errorCount + 1 },
   { status := 500
     body := { error := some message, requestId := some req.requestId
               latency := some req.elapsed } })

/-- The `app.post('/call')` handler on one request, against the current
`handlers` association list and server state.  Faithful to the source:
missing/empty `api` or bad `params` → 400 with no state change; unknown
api → `errorCount` incremented once before `throw APINotFoundError` and
once more in the catch block, then a 500 with the `API not found`
message; `payment.amount < price` → 402 carrying `required`/`received`
with no state change and no handler invocation; otherwise the handler
races a `timeout` timer (default 30000ms) — the timer winning or the
handler rejecting lands in the catch block, the handler resolving first
updates the stats, awaits the heartbeat, and sends the 200 response. -/
def handleCall (handlers : List (String × Registration)) (req : CallRequest)
    (st : ServerState) : CallResult :=
  match req.api with
  | none =>
    { response := { status := 400, body := { error := some "Missing or invalid API name" } }
      state := st, events := [.responseSent 400] }
  | some api =>
    if api = "" then
      { response := { status := 400, body := { error := some "Missing or invalid API name" } }
        state := st, events := [.responseSent 400] }
    else if ¬ req.paramsOk then
      { response := { status := 400, body := { error := some "Missing or invalid params" } }
        state := st, events := [.responseSent 400] }
    else
      match handlers.lookup api with
      | none =>
        let preThrow := { st with errorCount := st.errorCount + 1 }
        let (st', resp) := catchBlock preThrow req ("API not found: " ++ api)
        { response := resp, state := st', events := [.responseSent 500] }
      | some reg =>
        if req.payment.amount < reg.config.price then
          { response :=
              { status := 402
                body := { error := some "Insufficient payment"
                          required := some reg.config.price
                          received := some req.payment.amount } }
            state := st, events := [.responseSent 402] }
        else
          let tmo := reg.config.timeout.getD 30000
          match reg.handler with
          | .resolves result duration =>
            if tmo ≤ duration then
              let (st', resp) := catchBlock st req "Handler timeout"
              { response := resp, state := st'
                events := [.handlerInvoked, .responseSent 500] }
            else
              let st' := recordSuccess st reg.config.price req.elapsed
              { response :=
                  { status := 200
                    body := { data := some result, requestId := some req.requestId
                              latency := some req.elapsed
                              cost := some reg.config.price } }
                state := st'
                events := [.handlerInvoked, .statsUpdated,
                           .heartbeatDispatched req.elapsed st'.requestsServed st'.errorCount,
                           .heartbeatSettled, .responseSent 200] }
          | .rejects message duration =>
            if tmo ≤ duration then
              let (st', resp) := catchBlock st req "Handler timeout"
              { response := resp, state := st'
                events := [.handlerInvoked, .responseSent 500] }
            else
              let (st', resp) := catchBlock st req message
              { response := resp, state := st'
                events := [.handlerInvoked, .responseSent 500] }

/-- `precedesP p q es` holds when some event satisfying `p` occurs
strictly before some event satisfying `q` in the trace `es`. -/
def precedesP (p q : Event → Bool) : List Event → Bool
  | [] => false
  | e :: rest => (p e && rest.any q) || precedesP p q rest

/-- Recognizes the stats-mutation event. -/
def isStatsUpdated : Event → Bool
  | .statsUpdated => true
  | _ => false

/-- Recognizes the heartbeat-dispatch event, whatever its payload. -/
def isHeartbeatDispatched : Event → Bool
  | .heartbeatDispatched _ _ _ => true
  | _ => false

/-- Recognizes the settling of the awaited heartbeat. -/
def isHeartbeatSettled : Event → Bool
  | .heartbeatSettled => true
  | _ => false

/-- Recognizes the sending of the response, whatever its status. -/
def isResponseSent : Event → Bool
  | .responseSent _ => true
  | _ => false

/-! Concrete fixtures for the dispatch claims. -/

/-- An `echo` registration priced at 0.01 USDC resolving in 5ms. -/
def echoReg : Registration :=
  { handler := .resolves "ok" 5, config := { price := 1 / 100, timeout := none } }

/-- A claim paying exactly 0.01. -/
def paidClaim : PaymentClaim :=
  { amount := 1 / 100, sender := "senderX", signature := "sig1", chain := "solana" }

/-- The zero claim the middleware synthesizes for free calls. -/
def freeClaim : PaymentClaim :=
  { amount := 0, sender := "unknown", signature := "free-api-call", chain := "solana" }

/-- A well-formed paid request for `echo`. -/
def reqPaid : CallRequest :=
  { api := some "echo", paramsOk := true, payment := paidClaim
    requestId := "rid1", elapsed := 10 }

/-- The same request shape but carrying the zero claim. -/
def reqUnderpaid : CallRequest :=
  { api := some "echo", paramsOk := true, payment := freeClaim
    requestId := "rid2", elapsed := 10 }

/-- A request naming an api that was never registered. -/
def missingReq : CallRequest :=
  { api := some "missing", paramsOk := true, payment := freeClaim
    requestId := "ridm", elapsed := 3 }

/-- C3: for a shape-valid request naming a registered api, paying less
than the configured price yields the 402 `Insufficient payment`
response carrying `required` (the price) and `received` (the amount),
with the state unchanged and the handler never invoked; paying at least
the price (equality included) passes the price check and the handler is
invoked. -/
theorem price_check_spec (handlers : List (String × Registration))
    (req : CallRequest) (st : ServerState) (api : String) (reg : Registration)
    (hapi : req.api = some api) (hne : api ≠ "") (hp : req.paramsOk = true)
    (hreg : handlers.lookup api = some reg) :
    (req.payment.amount < reg.config.price →
      handleCall handlers req st =
        { response :=
            { status := 402
              body := { error := some "Insufficient payment"
                        required := some reg.config.price
                        received := some req.payment.amount } }
          state := st, events := [.responseSent 402] } ∧
      .handlerInvoked ∉ (handleCall handlers req st).events) ∧
    (reg.config.price ≤ req.payment.amount →
      .handlerInvoked ∈ (handleCall handlers req st).events) := by
  constructor
  · intro hlt
    have heq : handleCall handlers req st =
        { response :=
            { status := 402
              body := { error := some "Insufficient payment"
                        required := some reg.config.price
                        received := some req.payment.amount } }
          state := st, events := [.responseSent 402] } := by
      simp [handleCall, hapi, hne, hp, hreg, hlt]
    refine ⟨heq, ?_⟩
    rw [heq]
    simp
  · intro hge
    have hnlt : ¬ req.payment.amount < reg.config.price := not_lt.mpr hge
    rcases hb : reg.handler with ⟨result, duration⟩ | ⟨message, duration⟩ <;>
      by_cases htd : reg.config.timeout.getD 30000 ≤ duration <;>
        simp [handleCall, hapi, hne, hp, hreg, hnlt, hb, htd]

/-- Witness for C3: with `echo` registered at price 0.01, the zero
claim is refused with `required = 0.01, received = 0`, and the paid
claim reaches the handler. -/
theorem price_check_spec_witness :
    (handleCall [("echo", echoReg)] reqUnderpaid initialState =
      { response :=
          { status := 402
            body := { error := some "Insufficient payment"
                      required := some ((1 : ℚ) / 100), received := some 0 } }
        state := initialState, events := [.responseSent 402] }) ∧
    .handlerInvoked ∈ (handleCall [("echo", echoReg)] reqPaid initialState).events := by
  constructor
  · exact ((price_check_spec [("echo", echoReg)] reqUnderpaid initialState "echo"
      echoReg rfl (by decide) rfl rfl).1 (by norm_num [reqUnderpaid, freeClaim, echoReg])).1
  · exact (price_check_spec [("echo", echoReg)] reqPaid initialState "echo"
      echoReg rfl (by decide) rfl rfl).2 (by norm_num [reqPaid, paidClaim, echoReg])

/-- C4: a shape-valid call naming an unregistered api terminates with
the 500 `API not found` outcome, but the error counter is incremented
twice for this single failed call — once before the
`APINotFoundError` is thrown and once more in the catch block — so the
error-count numerator does not track one increment per failed call. -/
theorem handler_not_found_double_count :
    (handleCall [] missingReq initialState).response.status = 500 ∧
    (handleCall [] missingReq initialState).response.body.error =
      some "API not found: missing" ∧
    (handleCall [] missingReq initialState).state.errorCount = 2 := by
  refine ⟨rfl, rfl, rfl⟩

/-- Helper: a `/call` request answered with status 200 necessarily came
through the success branch — a registered api whose handler resolved
ahead of the timeout — and its full outcome is the success record. -/
theorem handleCall_success (handlers : List (String × Registration))
    (req : CallRequest) (st : ServerState)
    (h200 : (handleCall handlers req st).response.status = 200) :
    ∃ api reg result duration,
      req.api = some api ∧ handlers.lookup api = some reg ∧
      reg.handler = .resolves result duration ∧
      handleCall handlers req st =
        { response :=
            { status := 200
              body := { data := some result, requestId := some req.requestId
                        latency := some req.elapsed
                        cost := some reg.config.price } }
          state := recordSuccess st reg.config.price req.elapsed
          events :=
            [.handlerInvoked, .statsUpdated,
             .heartbeatDispatched req.elapsed
               (recordSuccess st reg.config.price req.elapsed).requestsServed
               (recordSuccess st reg.config.price req.elapsed).errorCount,
             .heartbeatSettled, .responseSent 200] } := by
  rcases hapi : req.api with _ | api
  · simp [handleCall, hapi] at h200
  · by_cases hne : api = ""
    · simp [handleCall, hapi, hne] at h200
    · by_cases hp : req.paramsOk
      · rcases hreg : handlers.lookup api with _ | reg
        · simp [handleCall, hapi, hne, hp, hreg, catchBlock] at h200
        · by_cases hlt : req.payment.amount < reg.config.price
          · simp [handleCall, hapi, hne, hp, hreg, hlt] at h200
          · rcases hb : reg.handler with ⟨result, duration⟩ | ⟨message, duration⟩
            · by_cases htd : reg.config.timeout.getD 30000 ≤ duration
              · simp [handleCall, hapi, hne, hp, hreg, hlt, hb, htd, catchBlock] at h200
              · exact ⟨api, reg, result, duration, rfl, hreg, hb,
                  by simp [handleCall, hapi, hne, hp, hreg, hlt, hb, htd]⟩
            · by_cases htd : reg.config.timeout.getD 30000 ≤ duration
              · simp [handleCall, hapi, hne, hp, hreg, hlt, hb, htd, catchBlock] at h200
              · simp [handleCall, hapi, hne, hp, hreg, hlt, hb, htd, catchBlock] at h200
      · simp [handleCall, hapi, hne, hp] at h200

/-! Fixtures for the remaining dispatch claims: a free `echo` handler
and a failing `boom` handler. -/

/-- A zero-priced `echo` registration resolving in 5ms. -/
def zeroEchoReg : Registration :=
  { handler := .resolves "ok" 5, config := { price := 0, timeout := none } }

/-- A zero-priced registration whose handler rejects after 5ms. -/
def boomReg : Registration :=
  { handler := .rejects "boom" 5, config := { price := 0, timeout := none } }

/-- Handler table holding `echo` and `boom`. -/
def twoHandlers : List (String × Registration) :=
  [("echo", zeroEchoReg), ("boom", boomReg)]

/-- A free call to the zero-priced `echo`. -/
def reqEchoFree : CallRequest :=
  { api := some "echo", paramsOk := true, payment := freeClaim
    requestId := "r1", elapsed := 10 }

/-- A free call to the failing `boom`. -/
def reqBoomFree : CallRequest :=
  { api := some "boom", paramsOk := true, payment := freeClaim
    requestId := "r2", elapsed := 4 }

/-- C5 counterexample: on a concrete successful call the claim "stats
are mutated before the heartbeat AND the heartbeat dispatch never
blocks the response" fails, because the source `await`s the heartbeat:
the response is sent only after the heartbeat settles, so the settling
event precedes the response event in the trace. -/
theorem heartbeat_blocking_cex :
    ¬ ((handleCall twoHandlers reqEchoFree initialState).response.status = 200 →
        precedesP isStatsUpdated isHeartbeatDispatched
          (handleCall twoHandlers reqEchoFree initialState).events = true ∧
        precedesP isHeartbeatSettled isResponseSent
          (handleCall twoHandlers reqEchoFree initialState).events = false) := by
  have h200 : (handleCall twoHandlers reqEchoFree initialState).response.status = 200 := by
    simp [handleCall, twoHandlers, zeroEchoReg, boomReg, reqEchoFree, freeClaim, List.lookup]
  have hblock : precedesP isHeartbeatSettled isResponseSent
      (handleCall twoHandlers reqEchoFree initialState).events = true := by
    simp [handleCall, twoHandlers, zeroEchoReg, boomReg, reqEchoFree, freeClaim,
      List.lookup, precedesP, isHeartbeatSettled, isResponseSent]
  intro hclaim
  rcases hclaim h200 with ⟨-, hfalse⟩
  rw [hblock] at hfalse
  exact Bool.noConfusion hfalse

/-- C5 as amended: for every successful call the stats mutation occurs
strictly before the heartbeat dispatch, but the heartbeat is awaited,
so the response is sent only after the heartbeat has settled — the
dispatch blocks the response (its failures are swallowed inside
`RegistryClient.heartbeat`, so it is best-effort, yet not
non-blocking). -/
theorem stats_before_heartbeat_spec (handlers : List (String × Registration))
    (req : CallRequest) (st : ServerState)
    (h200 : (handleCall handlers req st).response.status = 200) :
    precedesP isStatsUpdated isHeartbeatDispatched
      (handleCall handlers req st).events = true ∧
    precedesP isHeartbeatSettled isResponseSent
      (handleCall handlers req st).events = true := by
  obtain ⟨api, reg, result, duration, -, -, -, heq⟩ :=
    handleCall_success handlers req st h200
  rw [heq]
  exact ⟨rfl, rfl⟩

/-- Witness for C5 (amended): the concrete successful free `echo` call
shows both orderings. -/
theorem stats_before_heartbeat_spec_witness :
    precedesP isStatsUpdated isHeartbeatDispatched
      (handleCall twoHandlers reqEchoFree initialState).events = true ∧
    precedesP isHeartbeatSettled isResponseSent
      (handleCall twoHandlers reqEchoFree initialState).events = true :=
  stats_before_heartbeat_spec twoHandlers reqEchoFree initialState
    (by simp [handleCall, twoHandlers, zeroEchoReg, boomReg, reqEchoFree,
      freeClaim, List.lookup])

/-- C6 counterexample: after a successful call followed by a failed
call (both completed), the stored `errorRate` is stale — the failure
path increments `errorCount` without recomputing the derived fields, so
`errorRate ≠ errorCount / requestsServed`. -/
theorem stats_stale_after_failure_cex :
    (handleCall twoHandlers reqBoomFree
        (handleCall twoHandlers reqEchoFree initialState).state).response.status = 500 ∧
    (handleCall twoHandlers reqBoomFree
        (handleCall twoHandlers reqEchoFree initialState).state).state.errorRate ≠
      ((handleCall twoHandlers reqBoomFree
          (handleCall twoHandlers reqEchoFree initialState).state).state.errorCount : ℚ) /
      ((handleCall twoHandlers reqBoomFree
          (handleCall twoHandlers reqEchoFree initialState).state).state.requestsServed : ℚ) := by
  have hstep : (handleCall twoHandlers reqEchoFree initialState).state =
      { requestsServed := 1, totalEarnings := 0, averageLatency := 10
        errorRate := 0, totalLatency := 10, errorCount := 0 } := by
    norm_num [handleCall, twoHandlers, zeroEchoReg, boomReg, reqEchoFree, freeClaim,
      initialState, recordSuccess, List.lookup]
    simp
  rw [hstep]
  norm_num [handleCall, twoHandlers, zeroEchoReg, boomReg, reqBoomFree, freeClaim,
    catchBlock, List.lookup]
  simp

/-- C6 as amended: after every successful call the snapshot is
consistent with its defining counters — `averageLatency` equals
`totalLatency / requestsServed` and `errorRate` equals
`errorCount / requestsServed`; failure paths advance `errorCount`
without recomputing the derived fields, so consistency is only restored
by the next success. -/
theorem stats_consistent_after_success (handlers : List (String × Registration))
    (req : CallRequest) (st : ServerState)
    (h200 : (handleCall handlers req st).response.status = 200) :
    (handleCall handlers req st).state.averageLatency =
      (handleCall handlers req st).state.totalLatency /
        ((handleCall handlers req st).state.requestsServed : ℚ) ∧
    (handleCall handlers req st).state.errorRate =
      ((handleCall handlers req st).state.errorCount : ℚ) /
        ((handleCall handlers req st).state.requestsServed : ℚ) := by
  obtain ⟨api, reg, result, duration, -, -, -, heq⟩ :=
    handleCall_success handlers req st h200
  rw [heq]
  exact ⟨rfl, rfl⟩

/-- Witness for C6 (amended) at a concrete successful call. -/
theorem stats_consistent_after_success_witness :
    (handleCall twoHandlers reqEchoFree initialState).state.averageLatency =
      (handleCall twoHandlers reqEchoFree initialState).state.totalLatency /
        ((handleCall twoHandlers reqEchoFree initialState).state.requestsServed : ℚ) ∧
    (handleCall twoHandlers reqEchoFree initialState).state.errorRate =
      ((handleCall twoHandlers reqEchoFree initialState).state.errorCount : ℚ) /
        ((handleCall twoHandlers reqEchoFree initialState).state.requestsServed : ℚ) :=
  stats_consistent_after_success twoHandlers reqEchoFree initialState
    (by simp [handleCall, twoHandlers, zeroEchoReg, boomReg, reqEchoFree,
      freeClaim, List.lookup])

/-- A request whose `api` field is missing: the 400 path. -/
def badShapeReq : CallRequest :=
  { api := none, paramsOk := true, payment := freeClaim
    requestId := "r3", elapsed := 2 }

/-- C7 counterexample: the 400 `Missing or invalid API name` failure
response carries neither the call's request id nor its latency, even
though both are known when it is sent — refuting "every failure
response includes the call's requestId and elapsed latency where
known". -/
theorem failure_response_fields_cex :
    ¬ (400 ≤ (handleCall [] badShapeReq initialState).response.status →
        (handleCall [] badShapeReq initialState).response.body.requestId =
          some badShapeReq.requestId ∧
        (handleCall [] badShapeReq initialState).response.body.latency =
          some badShapeReq.elapsed) := by
  decide

/-- C7 as amended: only the catch-path 500 failure responses include
the call's `requestId` and elapsed latency; the 400 bad-request and 402
insufficient-payment responses include neither field. -/
theorem failure_response_fields_spec (handlers : List (String × Registration))
    (req : CallRequest) (st : ServerState) :
    ((handleCall handlers req st).response.status = 500 →
      (handleCall handlers req st).response.body.requestId = some req.requestId ∧
      (handleCall handlers req st).response.body.latency = some req.elapsed) ∧
    ((handleCall handlers req st).response.status = 400 ∨
        (handleCall handlers req st).response.status = 402 →
      (handleCall handlers req st).response.body.requestId = none ∧
      (handleCall handlers req st).response.body.latency = none) := by
  rcases hapi : req.api with _ | api
  · constructor <;> intro h <;>
      simp [handleCall, hapi] at h ⊢
  · by_cases hne : api = ""
    · constructor <;> intro h <;>
        simp [handleCall, hapi, hne] at h ⊢
    · by_cases hp : req.paramsOk
      · rcases hreg : handlers.lookup api with _ | reg
        · constructor <;> intro h <;>
            simp [handleCall, hapi, hne, hp, hreg, catchBlock] at h ⊢
        · by_cases hlt : req.payment.amount < reg.config.price
          · constructor <;> intro h <;>
              simp [handleCall, hapi, hne, hp, hreg, hlt] at h ⊢
          · rcases hb : reg.handler with ⟨result, duration⟩ | ⟨message, duration⟩ <;>
              by_cases htd : reg.config.timeout.getD 30000 ≤ duration <;>
                constructor <;> intro h <;>
                  simp [handleCall, hapi, hne, hp, hreg, hlt, hb, htd, catchBlock] at h ⊢
      · constructor <;> intro h <;>
          simp [handleCall, hapi, hne, hp] at h ⊢

/-- Witness for C7 (amended): the unknown-api 500 response carries the
request id and latency, and the 400 response carries neither. -/
theorem failure_response_fields_spec_witness :
    ((handleCall [] missingReq initialState).response.body.requestId =
        some missingReq.requestId ∧
      (handleCall [] missingReq initialState).response.body.latency =
        some missingReq.elapsed) ∧
    ((handleCall [] badShapeReq initialState).response.body.requestId = none ∧
      (handleCall [] badShapeReq initialState).response.body.latency = none) :=
  ⟨(failure_response_fields_spec [] missingReq initialState).1 (by decide),
   (failure_response_fields_spec [] badShapeReq initialState).2 (Or.inl (by decide))⟩

/-! ## Registry lifecycle client (registry-client.ts) and server
start/stop (index.ts) -/

/-- Outcome of the single `fetch` made by `RegistryClient.register`:
an ok response, a non-ok HTTP response carrying the registry's error
text, or a network-level failure. -/
inductive FetchOutcome
  | success
  | httpError (message : String)
  | networkFailure (message : String)
deriving Repr, DecidableEq

/-- The registry client's own state: whether its 60-second heartbeat
interval timer is running. -/
structure RegistryClientState where
  heartbeatActive : Bool
deriving Repr, DecidableEq

/-- `RegistryClient.register(data)`: POST to `/register`; a non-ok
response raises `RegistryError('Registration failed: ...')` inside the
try block, re-wrapped by the outer catch into `Failed to register: ...`;
a network failure is wrapped by the outer catch directly.  On success
`startHeartbeat()` is called before returning. -/
def registryRegister (response : FetchOutcome) (rc : RegistryClientState) :
    Except String RegistryClientState :=
  match response with
  | .success => .ok { rc with heartbeatActive := true }
  | .httpError e =>
    .error ("Failed to register: RegistryError: Registration failed: " ++ e)
  | .networkFailure e => .error ("Failed to register: " ++ e)

/-- The body of one heartbeat POST, minus the provider id and
timestamp. -/
structure HeartbeatPayload where
  latency : ℚ
  requestsServed : ℕ
  errors : ℕ
deriving Repr, DecidableEq

/-- The payload the `startHeartbeat` interval callback sends on every
tick: the source closure captures no stats and always posts
`latency: 0, requestsServed: 0, errors: 0`; the unused `_current`
parameter records that the node's live stats exist but are never
read. -/
def heartbeatTickPayload (_current : ServerState) : HeartbeatPayload :=
  { latency := 0, requestsServed := 0, errors := 0 }

/-- The fixed interval of the background heartbeat task: 60000 ms. -/
def heartbeatIntervalMs : ℕ := 60000

/-- Modelled from the spec's words, for comparison only: the "latest
health snapshot" a tick would send under the claim's reading — the
node's current latency, requests served, and error count. -/
def specLatestSnapshot (current : ServerState) : HeartbeatPayload :=
  { latency := current.averageLatency
    requestsServed := current.requestsServed
    errors := current.errorCount }

/-- The provider node's lifecycle state: whether the `server` variable
holds a listening HTTP server instance, the registry client's state,
and the stats object. -/
structure NodeState where
  listening : Bool
  rc : RegistryClientState
  stats : ServerState
deriving Repr, DecidableEq

/-- `start()`: registers with the registry first; only when
registration succeeds is `app.listen` reached (the node serves traffic,
the heartbeat interval already running); a registration failure rejects
with `ProviderNodeError('Failed to start server: ...')` and the listen
call is never reached. -/
def start (response : FetchOutcome) (ns : NodeState) : Except String NodeState :=
  match registryRegister response ns.rc with
  | .ok rc' => .ok { ns with rc := rc', listening := true }
  | .error e => .error ("Failed to start server: " ++ e)

/-- Outbound lifecycle effects observable by the registry. -/
inductive NodeEvent
  | unregisterRequested
deriving Repr, DecidableEq

/-- `stop()`: only when a server instance exists does it unregister
(which stops the heartbeat timer first) and close the server; with no
server instance it resolves immediately, doing nothing. -/
def stop (ns : NodeState) : NodeState × List NodeEvent :=
  if ns.listening then
    ({ ns with listening := false, rc := { heartbeatActive := false } },
     [.unregisterRequested])
  else (ns, [])

/-- A node before any successful `start`: not listening, heartbeat
timer off, zero stats. -/
def idleNode : NodeState :=
  { listening := false, rc := { heartbeatActive := false }, stats := initialState }

/-- C8: `start` serves traffic only after registration succeeds: any
non-success registry outcome makes `start` reject with an error (the
listen call is never reached — no `.ok` state exists), and every
successful `start` came from a success response, is listening, and has
the periodic heartbeat task running. -/
theorem start_registration_gate (response : FetchOutcome) (ns : NodeState) :
    (response ≠ .success → ∃ msg, start response ns = .error msg) ∧
    (∀ ns', start response ns = .ok ns' →
      response = .success ∧ ns'.listening = true ∧ ns'.rc.heartbeatActive = true) := by
  constructor
  · intro hne
    cases response with
    | success => exact absurd rfl hne
    | httpError e => exact ⟨_, rfl⟩
    | networkFailure e => exact ⟨_, rfl⟩
  · intro ns' h
    cases response with
    | success =>
      simp only [start, registryRegister, Except.ok.injEq] at h
      subst h
      exact ⟨rfl, rfl, rfl⟩
    | httpError e => simp [start, registryRegister] at h
    | networkFailure e => simp [start, registryRegister] at h

/-- Witness for C8: a registry rejection leaves `start` in error, and
the successful `start` of the idle node listens with the heartbeat
running. -/
theorem start_registration_gate_witness :
    (∃ msg, start (.httpError "boom") idleNode = .error msg) ∧
    (FetchOutcome.success = FetchOutcome.success ∧
      ({ listening := true, rc := { heartbeatActive := true }
         stats := initialState } : NodeState).listening = true ∧
      ({ listening := true, rc := { heartbeatActive := true }
         stats := initialState } : NodeState).rc.heartbeatActive = true) :=
  ⟨(start_registration_gate (.httpError "boom") idleNode).1 (by decide),
   (start_registration_gate .success idleNode).2
     { listening := true, rc := { heartbeatActive := true }, stats := initialState }
     rfl⟩

/-- A stats snapshot after real traffic: five requests served. -/
def trafficStats : ServerState :=
  { requestsServed := 5, totalEarnings := 1, averageLatency := 12
    errorRate := 0, totalLatency := 60, errorCount := 0 }

/-- C9 counterexample: with real traffic recorded (five requests
served), the claim "the tick payload is the latest health snapshot,
with a zeroed snapshot sent only when no traffic occurred" is false:
the interval callback posts the constant zeroed payload anyway. -/
theorem heartbeat_tick_zeroed_cex :
    ¬ (heartbeatTickPayload trafficStats = specLatestSnapshot trafficStats ∨
        (trafficStats.requestsServed = 0 ∧
          heartbeatTickPayload trafficStats =
            { latency := 0, requestsServed := 0, errors := 0 })) := by
  decide

/-- C9 as amended: every tick of the fixed 60-second background
heartbeat posts the zeroed payload `latency 0, requestsServed 0,
errors 0` regardless of the node's current stats; the registry receives
real stats only through the per-call heartbeat on the dispatch success
path. -/
theorem heartbeat_tick_always_zero (current : ServerState) :
    heartbeatTickPayload current =
      { latency := 0, requestsServed := 0, errors := 0 } ∧
    heartbeatIntervalMs = 60000 :=
  ⟨rfl, rfl⟩

/-- C10: calling `stop()` while no server instance exists (before
`start` has completed successfully) is a no-op: it resolves, leaves the
whole node state — heartbeat timer and stats included — unchanged, and
sends no unregister request to the registry. -/
theorem stop_before_start_noop (ns : NodeState) (h : ns.listening = false) :
    stop ns = (ns, []) := by
  simp [stop, h]

/-- Witness for C10 at the idle node. -/
theorem stop_before_start_noop_witness : stop idleNode = (idleNode, []) :=
  stop_before_start_noop idleNode rfl

end X402Router
